import Mathlib

/-!
Verification of the batch image-localization pipeline
(`src/main_app.py` and `src/main_app_new.py`).

The remote HTTP service (OpenRouter chat completions) is abstracted as an
oracle: for each call site, a function from the 1-based attempt number to the
outcome of that attempt.  An attempt outcome distinguishes the exception
classes that the code distinguishes:

* `ok v` — the POST returned a non-error status and the body parsed, and the
  caller-relevant text was extracted; `v` is that text.
* `clientError msg` — the attempt raised `aiohttp.ClientError` or
  `asyncio.TimeoutError`, the two classes caught by the `except` clause in
  `async_openrouter_call` (src/main_app_new.py line 133).  Note that
  `response.raise_for_status()` raises `aiohttp.ClientResponseError` for every
  status of 400 or above, and `ClientResponseError` (as well as
  `ContentTypeError`) is a subclass of `aiohttp.ClientError`, so 4xx responses
  land in this class.
* `otherExn msg` — the attempt raised any other exception (for example
  `json.JSONDecodeError` from `response.json()` on a body that is not valid
  JSON); such an exception is not caught by the `except` clause and propagates
  out of `async_openrouter_call` at once.

Wall-clock timing (`time.time()`, `elapsed_seconds`) is not modelled; the
backoff sleeps are recorded symbolically as a list of delays in seconds.
-/

namespace AdImgLoc

/-- Configuration constant `MAX_RETRIES` (src/main_app_new.py line 28). -/
def MAX_RETRIES : Nat := 3

/-- Configuration constant `MAX_WORKERS` (src/main_app_new.py line 29). -/
def MAX_WORKERS : Nat := 6

/-- Outcome of one HTTP attempt, classified by the exception taxonomy that the
code in `async_openrouter_call` actually distinguishes (see the file header). -/
inductive AttemptOutcome (α : Type) where
  | ok (v : α)
  | clientError (msg : String)
  | otherExn (msg : String)
deriving DecidableEq

/-- True when the attempt succeeded. -/
def AttemptOutcome.isOk {α : Type} : AttemptOutcome α → Bool
  | .ok _ => true
  | _ => false

/-- True when the attempt raised one of the two caught exception classes. -/
def AttemptOutcome.isClientError {α : Type} : AttemptOutcome α → Bool
  | .clientError _ => true
  | _ => false

/-- A Python exception escaping `async_openrouter_call`: either the
`RuntimeError` raised on line 137 after the loop exhausts its attempts, or an
uncaught exception propagating from inside an attempt. -/
inductive PyError where
  | runtimeError (msg : String)
  | raised (msg : String)
deriving DecidableEq

/-- Message text of the exception, as `str(e)` would render it in the caller. -/
def PyError.msg : PyError → String
  | .runtimeError m => m
  | .raised m => m

/-- Observable behaviour of one `async_openrouter_call` invocation: the value
returned or exception raised, the number of attempts issued, and the list of
backoff delays slept (in order, in seconds). -/
structure CallTrace (α : Type) where
  result : Except PyError α
  attempts : Nat
  sleeps : List Nat

/-- Shallow embedding of the retry loop of `async_openrouter_call`
(src/main_app_new.py lines 121-137):

  for attempt in range(1, MAX_RETRIES + 1):
      try:
          ... post ...; response.raise_for_status(); return await response.json()
      except (aiohttp.ClientError, asyncio.TimeoutError) as e:
          last_error = str(e)
          await asyncio.sleep(2 ** (attempt - 1))
  raise RuntimeError(f-string: label failed after retries: last_error)

`fuel` is the number of loop iterations left, `attempt` the 1-based attempt
number of the next iteration, `lastError` the current value of `last_error`.
A caught exception sleeps `2 ^ (attempt - 1)` and continues; an uncaught
exception aborts at once with no sleep; falling off the loop raises the
`RuntimeError`. -/
def retryFrom {α : Type} (oracle : Nat → AttemptOutcome α) (label : String) :
    Nat → Nat → String → CallTrace α
  | 0, _, lastError =>
      ⟨.error (.runtimeError (label ++ " failed after retries: " ++ lastError)), 0, []⟩
  | fuel + 1, attempt, _lastError =>
      match oracle attempt with
      | .ok v => ⟨.ok v, 1, []⟩
      | .otherExn e => ⟨.error (.raised e), 1, []⟩
      | .clientError e =>
          let rest := retryFrom oracle label fuel (attempt + 1) e
          ⟨rest.result, rest.attempts + 1, 2 ^ (attempt - 1) :: rest.sleeps⟩

/-- One invocation of `async_openrouter_call` (src/main_app_new.py lines
110-137), starting the loop at attempt 1 with `last_error = None`. -/
def async_openrouter_call {α : Type} (oracle : Nat → AttemptOutcome α)
    (label : String) : CallTrace α :=
  retryFrom oracle label MAX_RETRIES 1 "None"

/-- Classification of one completed HTTP round trip into the attempt-outcome
taxonomy, following the aiohttp semantics the code relies on:
`response.raise_for_status()` raises `aiohttp.ClientResponseError` — a subclass
of `aiohttp.ClientError`, hence caught and retried — for every status of 400 or
above; otherwise `response.json()` either parses (`body = some v`) or raises an
uncaught `json.JSONDecodeError` (`body = none`). -/
def httpAttemptOutcome {α : Type} (status : Nat) (body : Option α) : AttemptOutcome α :=
  if 400 ≤ status then .clientError ("HTTP error " ++ toString status)
  else match body with
    | some v => .ok v
    | none => .otherExn "malformed JSON body"

/-- Tagged outcome of one job, modelling the result dict built by
`async_process_single_image` (src/main_app_new.py lines 270-288): either the
success dict or the failure dict.  The fields `original_b64` and
`elapsed_seconds` (raw image echo and wall-clock timing) are not modelled. -/
inductive JobOutcome where
  | success (index : Nat) (original_name : String) (generated_image : String)
  | failure (index : Nat) (original_name : String) (error : String)
deriving DecidableEq

/-- The `index` field of the outcome dict. -/
def JobOutcome.idx : JobOutcome → Nat
  | .success i _ _ => i
  | .failure i _ _ => i

/-- The `original_name` field of the outcome dict. -/
def JobOutcome.origName : JobOutcome → String
  | .success _ n _ => n
  | .failure _ n _ => n

/-- The `success` field of the outcome dict. -/
def JobOutcome.isSuccess : JobOutcome → Bool
  | .success _ _ _ => true
  | .failure _ _ _ => false

/-- The three network-bound stages a job can invoke
(src/main_app_new.py lines 143-231). -/
inductive Stage where
  | localization
  | aspect
  | generation
deriving DecidableEq

/-- Instrumentation of one job run: the remote stages invoked, in program
order, and the prompt passed to the generation call when that call was
reached. -/
structure JobTrace where
  calls : List Stage
  genPrompt : Option String

/-- Attempt oracles for the three call sites of one job.  Each oracle folds the
HTTP round trip together with the field extraction performed by the wrapper
(`r` choices 0 message content in `async_analyze_localization` and
`async_analyze_aspect`, the images 0 image_url url path in
`async_generate_image`); a failing extraction after a successful round trip is
represented as an `otherExn` outcome, since either way the exception escapes
the stage uncaught.  The generation oracle depends on the prompt text the job
submits. -/
structure RemoteOracles where
  loc : Nat → AttemptOutcome String
  aspect : Nat → AttemptOutcome String
  gen : String → Nat → AttemptOutcome String

/-- Shallow embedding of `async_process_single_image`
(src/main_app_new.py lines 237-288).  The whole body is wrapped in
`try ... except Exception as e`, so every exception raised by a stage is
converted into the failure dict with `error = str(e)`; the stages run
sequentially: localization, then aspect analysis only when `ratio` is set
(line 261), then generation with the composed prompt
(`f-string: aspect, blank line, localization`, line 263). -/
def async_process_single_image (o : RemoteOracles) (file_name : String)
    (ratio : Option String) (index : Nat) : JobOutcome × JobTrace :=
  match (async_openrouter_call o.loc "LOCALIZATION").result with
  | .error e => (.failure index file_name e.msg, ⟨[.localization], none⟩)
  | .ok localization =>
    match ratio with
    | none =>
        match (async_openrouter_call (o.gen localization) "GENERATION").result with
        | .error e =>
            (.failure index file_name e.msg, ⟨[.localization, .generation], some localization⟩)
        | .ok url =>
            (.success index file_name url, ⟨[.localization, .generation], some localization⟩)
    | some _r =>
        match (async_openrouter_call o.aspect "ASPECT").result with
        | .error e => (.failure index file_name e.msg, ⟨[.localization, .aspect], none⟩)
        | .ok aspectText =>
            let prompt := aspectText ++ "\n\n" ++ localization
            match (async_openrouter_call (o.gen prompt) "GENERATION").result with
            | .error e =>
                (.failure index file_name e.msg,
                 ⟨[.localization, .aspect, .generation], some prompt⟩)
            | .ok url =>
                (.success index file_name url,
                 ⟨[.localization, .aspect, .generation], some prompt⟩)

/-- Remote-service stub for a whole batch: per file index, the attempt oracles
of the analysis call, the aspect call, and the (prompt-dependent) generation
call.  Both pipeline variants are run against the same stub. -/
structure Services where
  analysis : Nat → Nat → AttemptOutcome String
  aspect : Nat → Nat → AttemptOutcome String
  generation : Nat → String → Nat → AttemptOutcome String

/-- The oracles seen by the job at position `i` of the batch. -/
def oraclesFor (svc : Services) (i : Nat) : RemoteOracles :=
  ⟨svc.analysis i, svc.aspect i, svc.generation i⟩

/-- Helper for `process_all_images_async`: spawn one job per file, indices
counting up from `i`.  `asyncio.gather` (src/main_app_new.py line 314) returns
its results in task submission order, which is exactly this list. -/
def processFrom (svc : Services) (ratio : Option String) :
    Nat → List String → List JobOutcome
  | _, [] => []
  | i, nm :: rest =>
      (async_process_single_image (oraclesFor svc i) nm ratio i).1 ::
        processFrom svc ratio (i + 1) rest

/-- Shallow embedding of `process_all_images_async`
(src/main_app_new.py lines 291-316): one task per element of `files` (here
each file reduced to its name; the byte payload is folded into the oracles),
enumerated from index 0, gathered in task order. -/
def process_all_images_async (svc : Services) (files : List String)
    (ratio : Option String) : List JobOutcome :=
  processFrom svc ratio 0 files

/-- Shallow embedding of the finalization step of `main`
(src/main_app_new.py lines 408-411): the gathered outcomes sorted by their
`index` key.  Python `sorted` is a stable comparison sort; `List.mergeSort` is
the same on the same key order. -/
def sorted_results (rs : List JobOutcome) : List JobOutcome :=
  rs.mergeSort (fun a b => decide (a.idx ≤ b.idx))

/-- Result dict stored by the sequential variant
(src/main_app.py lines 187-191). -/
structure OldResult where
  original_name : String
  analysis : String
  generated_image : String
deriving DecidableEq

/-- Shallow embedding of `analyze_image` (src/main_app.py lines 25-74): one
single POST, no retry; the function catches every `Exception` (line 73) and
returns the pair (None, str(e)), so both caught-class and other exceptions
become an error return.  The no-choices branch (line 71) is folded into the
oracle error outcomes. -/
def analyze_image (svc : Services) (i : Nat) : Except String String :=
  match svc.analysis i 1 with
  | .ok t => .ok t
  | .clientError e => .error e
  | .otherExn e => .error e

/-- Shallow embedding of `generate_image_from_analysis`
(src/main_app.py lines 76-137): one single POST, no retry, every exception
caught (line 136); the prompt sent is the f-string with a leading space,
literally a space followed by the analysis text (line 97).  The
no-image branches (lines 132, 134) are folded into the oracle error
outcomes. -/
def generate_image_from_analysis (svc : Services) (i : Nat)
    (analysisText : String) : Except String String :=
  match svc.generation i (" " ++ analysisText) 1 with
  | .ok url => .ok url
  | .clientError e => .error e
  | .otherExn e => .error e

/-- Helper for `old_main_results`, indices counting up from `idx`. -/
def oldLoopFrom (svc : Services) : Nat → List String → List OldResult
  | _, [] => []
  | idx, nm :: rest =>
      match analyze_image svc idx with
      | .error _ => oldLoopFrom svc (idx + 1) rest
      | .ok analysisText =>
          match generate_image_from_analysis svc idx analysisText with
          | .error _ => oldLoopFrom svc (idx + 1) rest
          | .ok url => ⟨nm, analysisText, url⟩ :: oldLoopFrom svc (idx + 1) rest

/-- Shallow embedding of the processing loop of the sequential variant
(src/main_app.py lines 159-199): files processed one at a time, in order; a
failed analysis or generation reports `st.error` and executes `continue`, so
the failed file contributes nothing to `st.session_state.results`; a success
appends its result dict. -/
def old_main_results (svc : Services) (files : List String) : List OldResult :=
  oldLoopFrom svc 0 files

/-- Shallow embedding of the ZIP loop of the sequential variant
(src/main_app.py lines 209-219).  `dec` models the data-URI split plus
`base64.b64decode` of one generated-image payload; each item is a pair of
original name and payload.  The loop body is wrapped in
`try ... except Exception`, so a failing item produces one `st.warning` and the
loop continues.  Returns the archive entries in order together with the
warnings in order. -/
def zip_entries_old (dec : String → Except String String) :
    List (String × String) → List (String × String) × List String
  | [] => ([], [])
  | (nm, payload) :: rest =>
      let tail := zip_entries_old dec rest
      match dec payload with
      | .ok data => (("generated_" ++ nm, data) :: tail.1, tail.2)
      | .error e =>
          (tail.1, ("Could not prepare " ++ nm ++ " for download: " ++ e) :: tail.2)

/-- Shallow embedding of the ZIP loop of the async variant
(src/main_app_new.py lines 461-468).  The loop body has no exception handler:
the first payload whose split or decode raises lets the exception propagate,
abandoning the archive under construction. -/
def zip_entries_new (dec : String → Except String String) :
    List (String × String) → Except String (List (String × String))
  | [] => .ok []
  | (nm, payload) :: rest =>
      match dec payload with
      | .error e => .error e
      | .ok data =>
          match zip_entries_new dec rest with
          | .error e => .error e
          | .ok tail => .ok (("generated_" ++ nm, data) :: tail)

/-! ### Concrete stubs used by witnesses and counterexamples -/

/-- Stub services where every remote call succeeds on its first attempt. -/
def svcAllOk : Services :=
  ⟨fun _ _ => .ok "LOC", fun _ _ => .ok "ASP", fun _ _ _ => .ok "IMG"⟩

/-- Stub services where the analysis call of every file fails with a caught
transient error on attempt 1 and succeeds from attempt 2 on, while generation
always succeeds at once. -/
def svcFlaky : Services :=
  ⟨fun _ k => if k ≤ 1 then .clientError "timeout" else .ok "LOC",
   fun _ _ => .ok "ASP",
   fun _ _ _ => .ok "IMG"⟩

/-- Stub payload decoder: the payload "bad" raises on decode, every other
payload decodes to itself. -/
def decStub : String → Except String String :=
  fun s => if s = "bad" then .error "Invalid base64" else .ok s

/-- Stub job oracles whose localization call raises an uncaught exception. -/
def oracleLocFail : RemoteOracles :=
  ⟨fun _ => .otherExn "boom", fun _ => .ok "ASP", fun _ _ => .ok "IMG"⟩

/-- Stub job oracles where every call succeeds on its first attempt. -/
def oracleAllOk : RemoteOracles :=
  ⟨fun _ => .ok "LOC", fun _ => .ok "ASP", fun _ _ => .ok "IMG"⟩

/-! ### Helper lemmas about the retry loop -/

/-- Each recorded backoff delay doubles the previous one: the delay stored at
position `i` of the sleep list is `2 ^ (attempt - 1 + i)` when the loop starts
at attempt number `attempt ≥ 1`. -/
theorem retryFrom_sleeps_get {α : Type} (oracle : Nat → AttemptOutcome α) (label : String) :
    ∀ (fuel attempt : Nat) (last : String) (i : Nat), 1 ≤ attempt →
      i < (retryFrom oracle label fuel attempt last).sleeps.length →
      (retryFrom oracle label fuel attempt last).sleeps[i]? = some (2 ^ (attempt - 1 + i)) := by
  intro fuel
  induction fuel with
  | zero => intro attempt last i _ hi; simp [retryFrom] at hi
  | succ n ih =>
      intro attempt last i ha hi
      rcases ho : oracle attempt with v | e | e <;>
        simp only [retryFrom, ho] at hi ⊢
      · simp at hi
      · cases i with
        | zero => simp
        | succ j =>
            simp only [List.length_cons] at hi
            have hj := ih (attempt + 1) e j (by omega) (by omega)
            simp only [List.getElem?_cons_succ]
            rw [hj]
            congr 2
            omega
      · simp at hi

/-- The loop sleeps at least once per attempt except possibly the last one. -/
theorem retryFrom_attempts_le_sleeps {α : Type} (oracle : Nat → AttemptOutcome α) (label : String) :
    ∀ (fuel attempt : Nat) (last : String),
      (retryFrom oracle label fuel attempt last).attempts - 1 ≤
        (retryFrom oracle label fuel attempt last).sleeps.length := by
  intro fuel
  induction fuel with
  | zero => intro attempt last; simp [retryFrom]
  | succ n ih =>
      intro attempt last
      rcases ho : oracle attempt with v | e | e <;> simp only [retryFrom, ho] <;> simp
      have := ih (attempt + 1) e
      omega

/-! ### Claim theorems about the retry loop -/

/-- C4: a call whose attempts fail with a caught transient error exactly
MAX_RETRIES - 1 times and then succeed returns the success result after
exactly MAX_RETRIES attempts; a call whose attempts all fail with caught
transient errors raises, after exactly MAX_RETRIES attempts, the RuntimeError
that names the call label and carries the message of the last transient
cause. -/
theorem retry_then_success_and_exhaustion {α : Type}
    (oracle : Nat → AttemptOutcome α) (label : String) :
    (∀ v : α, (∀ k, 1 ≤ k → k < MAX_RETRIES → (oracle k).isClientError = true) →
      oracle MAX_RETRIES = .ok v →
      (async_openrouter_call oracle label).result = .ok v ∧
      (async_openrouter_call oracle label).attempts = MAX_RETRIES) ∧
    (∀ e : String, (∀ k, 1 ≤ k → k < MAX_RETRIES → (oracle k).isClientError = true) →
      oracle MAX_RETRIES = .clientError e →
      (async_openrouter_call oracle label).result =
        .error (.runtimeError (label ++ " failed after retries: " ++ e)) ∧
      (async_openrouter_call oracle label).attempts = MAX_RETRIES) := by
  constructor
  · intro v hpre hlast
    have h1 := hpre 1 (by decide) (by decide)
    have h2 := hpre 2 (by decide) (by decide)
    rcases ho1 : oracle 1 with v1 | e1 | e1 <;> rw [ho1] at h1 <;>
      simp [AttemptOutcome.isClientError] at h1
    rcases ho2 : oracle 2 with v2 | e2 | e2 <;> rw [ho2] at h2 <;>
      simp [AttemptOutcome.isClientError] at h2
    rw [show (MAX_RETRIES : Nat) = 3 from rfl] at hlast
    simp [async_openrouter_call, MAX_RETRIES, retryFrom, ho1, ho2, hlast]
  · intro e hpre hlast
    have h1 := hpre 1 (by decide) (by decide)
    have h2 := hpre 2 (by decide) (by decide)
    rcases ho1 : oracle 1 with v1 | e1 | e1 <;> rw [ho1] at h1 <;>
      simp [AttemptOutcome.isClientError] at h1
    rcases ho2 : oracle 2 with v2 | e2 | e2 <;> rw [ho2] at h2 <;>
      simp [AttemptOutcome.isClientError] at h2
    rw [show (MAX_RETRIES : Nat) = 3 from rfl] at hlast
    simp [async_openrouter_call, MAX_RETRIES, retryFrom, ho1, ho2, hlast]

/-- C4 witness: at a stub failing transiently on attempts 1 and 2 and
succeeding on attempt 3, the call returns the success; at a stub failing
transiently on every attempt, the call raises the exhaustion RuntimeError
after 3 attempts. -/
theorem retry_then_success_and_exhaustion_witness :
    ((async_openrouter_call
        (fun k => if k ≤ 2 then .clientError "timeout" else .ok "RESULT") "LOCALIZATION").result
        = .ok "RESULT" ∧
      (async_openrouter_call
        (fun k => if k ≤ 2 then .clientError "timeout" else .ok "RESULT") "LOCALIZATION").attempts
        = MAX_RETRIES) ∧
    ((async_openrouter_call
        (fun _ => (.clientError "timeout" : AttemptOutcome String)) "LOCALIZATION").result
        = .error (.runtimeError ("LOCALIZATION" ++ " failed after retries: " ++ "timeout")) ∧
      (async_openrouter_call
        (fun _ => (.clientError "timeout" : AttemptOutcome String)) "LOCALIZATION").attempts
        = MAX_RETRIES) :=
  ⟨(retry_then_success_and_exhaustion
      (fun k => if k ≤ 2 then .clientError "timeout" else .ok "RESULT") "LOCALIZATION").1
      "RESULT" (by decide) rfl,
   (retry_then_success_and_exhaustion
      (fun _ => (.clientError "timeout" : AttemptOutcome String)) "LOCALIZATION").2
      "timeout" (by decide) rfl⟩

/-- C5: for every attempt number k with k at least 2 that the retry loop
actually issues, the delay slept before issuing attempt k (that is, the sleep
recorded after the failure of attempt k - 1, at position k - 2 of the sleep
list) is exactly 2 to the power k - 2 seconds: 1 before attempt 2, 2 before
attempt 3, 4 before attempt 4. -/
theorem backoff_delay_before_attempt_k {α : Type} (oracle : Nat → AttemptOutcome α)
    (label : String) (k : Nat)
    (h2 : 2 ≤ k) (hk : k ≤ (async_openrouter_call oracle label).attempts) :
    (async_openrouter_call oracle label).sleeps[k - 2]? = some (2 ^ (k - 2)) := by
  have hlen := retryFrom_attempts_le_sleeps oracle label MAX_RETRIES 1 "None"
  have hget := retryFrom_sleeps_get oracle label MAX_RETRIES 1 "None" (k - 2) (by omega)
    (by unfold async_openrouter_call at hk; omega)
  unfold async_openrouter_call
  rw [hget]
  congr 2
  omega

/-- C5 witness: at a stub failing transiently on every attempt, the delay
before attempt 3 is 2 seconds. -/
theorem backoff_delay_before_attempt_k_witness :
    (async_openrouter_call
      (fun _ => (.clientError "timeout" : AttemptOutcome String)) "ASPECT").sleeps[1]?
      = some 2 :=
  backoff_delay_before_attempt_k
    (fun _ => (.clientError "timeout" : AttemptOutcome String)) "ASPECT" 3
    (by decide) (by decide)

/-- C10: when every attempt fails with a caught transient error, the loop
sleeps after the final failed attempt as well, so the recorded delays are
1, 2 and 4 seconds, the last sleep is 2 to the power MAX_RETRIES - 1, and the
total backoff is 2 to the power MAX_RETRIES minus 1, that is 7 seconds, before
the exhaustion RuntimeError is raised. -/
theorem exhaustion_total_backoff {α : Type} (oracle : Nat → AttemptOutcome α) (label : String)
    (h : ∀ k, 1 ≤ k → k ≤ MAX_RETRIES → (oracle k).isClientError = true) :
    (async_openrouter_call oracle label).sleeps = [1, 2, 4] ∧
    (async_openrouter_call oracle label).sleeps.getLast? = some (2 ^ (MAX_RETRIES - 1)) ∧
    (async_openrouter_call oracle label).sleeps.sum = 2 ^ MAX_RETRIES - 1 ∧
    ∃ m, (async_openrouter_call oracle label).result = .error (.runtimeError m) := by
  have h1 := h 1 (by decide) (by decide)
  have h2 := h 2 (by decide) (by decide)
  have h3 := h 3 (by decide) (by decide)
  rcases ho1 : oracle 1 with v1 | e1 | e1 <;> rw [ho1] at h1 <;>
    simp [AttemptOutcome.isClientError] at h1
  rcases ho2 : oracle 2 with v2 | e2 | e2 <;> rw [ho2] at h2 <;>
    simp [AttemptOutcome.isClientError] at h2
  rcases ho3 : oracle 3 with v3 | e3 | e3 <;> rw [ho3] at h3 <;>
    simp [AttemptOutcome.isClientError] at h3
  simp [async_openrouter_call, MAX_RETRIES, retryFrom, ho1, ho2, ho3]

/-- C10 witness: at a stub failing transiently on every attempt, the sleep
list is 1, 2, 4, its last element 4, its total 7, and the result is a
RuntimeError. -/
theorem exhaustion_total_backoff_witness :
    (async_openrouter_call
      (fun _ => (.clientError "timeout" : AttemptOutcome String)) "GENERATION").sleeps
      = [1, 2, 4] ∧
    (async_openrouter_call
      (fun _ => (.clientError "timeout" : AttemptOutcome String)) "GENERATION").sleeps.getLast?
      = some (2 ^ (MAX_RETRIES - 1)) ∧
    (async_openrouter_call
      (fun _ => (.clientError "timeout" : AttemptOutcome String)) "GENERATION").sleeps.sum
      = 2 ^ MAX_RETRIES - 1 ∧
    ∃ m, (async_openrouter_call
      (fun _ => (.clientError "timeout" : AttemptOutcome String)) "GENERATION").result
      = .error (.runtimeError m) :=
  exhaustion_total_backoff
    (fun _ => (.clientError "timeout" : AttemptOutcome String)) "GENERATION"
    (fun _ _ _ => rfl)

/-- C3 counterexample: a call answered with HTTP status 404 on every attempt —
a 4xx-class FatalError in the words of the claim — is not surfaced after one
attempt with zero retries and no sleep: raise_for_status raises
aiohttp.ClientResponseError, a subclass of the caught aiohttp.ClientError, so
the loop makes all 3 attempts and sleeps 1, 2 and 4 seconds. -/
theorem fatal_4xx_retried_cex :
    (async_openrouter_call
      (fun _ => httpAttemptOutcome 404 (none : Option String)) "LOCALIZATION").attempts = 3 ∧
    (async_openrouter_call
      (fun _ => httpAttemptOutcome 404 (none : Option String)) "LOCALIZATION").sleeps
      = [1, 2, 4] ∧
    ¬ ((async_openrouter_call
          (fun _ => httpAttemptOutcome 404 (none : Option String)) "LOCALIZATION").attempts = 1 ∧
       (async_openrouter_call
          (fun _ => httpAttemptOutcome 404 (none : Option String)) "LOCALIZATION").sleeps = []) := by
  refine ⟨rfl, by decide, ?_⟩
  intro hc
  have := hc.1
  simp [async_openrouter_call, MAX_RETRIES, retryFrom, httpAttemptOutcome] at this

/-- C3 amended: a 4xx-class HTTP response raises aiohttp.ClientResponseError,
a subclass of the caught aiohttp.ClientError, and is therefore retried like a
transient error; only an exception outside the caught classes — for example a
json.JSONDecodeError from a malformed response body — aborts the call at once,
after exactly one attempt, with no backoff sleep, and is surfaced to the
caller unchanged. -/
theorem uncaught_exn_single_attempt {α : Type} (oracle : Nat → AttemptOutcome α)
    (label : String) (e : String) (h : oracle 1 = .otherExn e) :
    (async_openrouter_call oracle label).attempts = 1 ∧
    (async_openrouter_call oracle label).sleeps = [] ∧
    (async_openrouter_call oracle label).result = .error (.raised e) := by
  simp [async_openrouter_call, MAX_RETRIES, retryFrom, h]

/-- C3 amended witness: a call whose first attempt returns HTTP 200 with a
body that is not valid JSON aborts after exactly one attempt with no sleep. -/
theorem uncaught_exn_single_attempt_witness :
    (async_openrouter_call
      (fun _ => httpAttemptOutcome 200 (none : Option String)) "GENERATION").attempts = 1 ∧
    (async_openrouter_call
      (fun _ => httpAttemptOutcome 200 (none : Option String)) "GENERATION").sleeps = [] ∧
    (async_openrouter_call
      (fun _ => httpAttemptOutcome 200 (none : Option String)) "GENERATION").result
      = .error (.raised "malformed JSON body") :=
  uncaught_exn_single_attempt
    (fun _ => httpAttemptOutcome 200 (none : Option String)) "GENERATION"
    "malformed JSON body" rfl

/-! ### Helper lemmas about jobs and batches -/

/-- Every job outcome carries the submission index and original name of its
input, on every success or failure path. -/
theorem job_idx_name (o : RemoteOracles) (nm : String) (ratio : Option String) (i : Nat) :
    ((async_process_single_image o nm ratio i).1).idx = i ∧
    ((async_process_single_image o nm ratio i).1).origName = nm := by
  unfold async_process_single_image
  rcases hl : (async_openrouter_call o.loc "LOCALIZATION").result with e | l
  · simp [JobOutcome.idx, JobOutcome.origName]
  · rcases ratio with _ | r
    · rcases hg : (async_openrouter_call (o.gen l) "GENERATION").result with e | u <;>
        simp [hg, JobOutcome.idx, JobOutcome.origName]
    · rcases ha : (async_openrouter_call o.aspect "ASPECT").result with e | a
      · simp [ha, JobOutcome.idx, JobOutcome.origName]
      · rcases hg : (async_openrouter_call (o.gen (a ++ "\n\n" ++ l)) "GENERATION").result with e | u <;>
          simp [ha, hg, JobOutcome.idx, JobOutcome.origName]

/-- The gathered outcome list carries the indices counting up from the start
index and the original names in input order. -/
theorem processFrom_map (svc : Services) (ratio : Option String) :
    ∀ (files : List String) (i : Nat),
      (processFrom svc ratio i files).map JobOutcome.idx = List.range' i files.length ∧
      (processFrom svc ratio i files).map JobOutcome.origName = files := by
  intro files
  induction files with
  | nil => intro i; simp [processFrom]
  | cons nm rest ih =>
      intro i
      have hj := job_idx_name (oraclesFor svc i) nm ratio i
      simp [processFrom, List.range'_succ, hj.1, hj.2, (ih (i + 1)).1, (ih (i + 1)).2]

/-- Sorting the outcomes is a permutation of them. -/
theorem sorted_results_perm (rs : List JobOutcome) : List.Perm (sorted_results rs) rs :=
  List.mergeSort_perm rs _

/-- Sorting the outcomes orders them by ascending index. -/
theorem sorted_results_pairwise (rs : List JobOutcome) :
    (sorted_results rs).Pairwise (fun a b => a.idx ≤ b.idx) := by
  have h : (sorted_results rs).Pairwise
      (fun a b => (decide (a.idx ≤ b.idx) : Bool) = true) := by
    unfold sorted_results
    exact List.sorted_mergeSort
      (fun a b c h1 h2 => by
        simp only [decide_eq_true_eq] at *
        omega)
      (fun a b => by
        simp only [Bool.or_eq_true, decide_eq_true_eq]
        omega)
      rs
  exact h.imp (fun hab => by simpa using hab)

/-- Two index-sorted permutations of each other with pairwise-distinct indices
are equal. -/
theorem eq_of_perm_of_idx_sorted (la lb : List JobOutcome)
    (hp : List.Perm la lb)
    (hsa : la.Pairwise (fun a b => a.idx ≤ b.idx))
    (hsb : lb.Pairwise (fun a b => a.idx ≤ b.idx))
    (hnd : (lb.map JobOutcome.idx).Nodup) :
    la = lb := by
  haveI : IsAntisymm JobOutcome (fun a b => a.idx < b.idx) :=
    ⟨fun a b h1 h2 => absurd (h1.trans h2) (lt_irrefl _)⟩
  have hnda : (la.map JobOutcome.idx).Nodup := (hp.map JobOutcome.idx).symm.nodup hnd
  have hnea : la.Pairwise (fun a b => a.idx ≠ b.idx) := by
    rw [List.Nodup, List.pairwise_map] at hnda
    exact hnda
  have hneb : lb.Pairwise (fun a b => a.idx ≠ b.idx) := by
    rw [List.Nodup, List.pairwise_map] at hnd
    exact hnd
  have key : ∀ la2 lb2 : List JobOutcome, List.Perm la2 lb2 →
      la2.Pairwise (fun a b => a.idx < b.idx) →
      lb2.Pairwise (fun a b => a.idx < b.idx) → la2 = lb2 :=
    fun _ _ hp2 h1 h2 => List.eq_of_perm_of_sorted hp2 h1 h2
  exact key la lb hp
    ((hsa.and hnea).imp (fun h => lt_of_le_of_ne h.1 h.2))
    ((hsb.and hneb).imp (fun h => lt_of_le_of_ne h.1 h.2))

/-- The gathered outcome list is already strictly sorted by index. -/
theorem batch_strict_sorted (svc : Services) (files : List String) (ratio : Option String) :
    (process_all_images_async svc files ratio).Pairwise (fun a b => a.idx < b.idx) := by
  have h := (processFrom_map svc ratio files 0).1
  have hmap : ((process_all_images_async svc files ratio).map JobOutcome.idx).Pairwise (· < ·) := by
    rw [process_all_images_async, h, ← List.range_eq_range']
    exact List.pairwise_lt_range _
  rw [List.pairwise_map] at hmap
  exact hmap

/-- A job whose localization and generation calls succeed on their first
attempts produces a success outcome (no-ratio run). -/
theorem job_success_of_first_ok (o : RemoteOracles) (nm : String) (i : Nat)
    (ha : ∃ t, o.loc 1 = .ok t) (hg : ∀ p, ∃ u, o.gen p 1 = .ok u) :
    ((async_process_single_image o nm none i).1).isSuccess = true := by
  obtain ⟨t, ht⟩ := ha
  have hloc : (async_openrouter_call o.loc "LOCALIZATION").result = .ok t := by
    simp [async_openrouter_call, MAX_RETRIES, retryFrom, ht]
  obtain ⟨u, hu⟩ := hg t
  have hgen : (async_openrouter_call (o.gen t) "GENERATION").result = .ok u := by
    simp [async_openrouter_call, MAX_RETRIES, retryFrom, hu]
  unfold async_process_single_image
  rw [hloc]
  simp [hgen, JobOutcome.isSuccess]

/-- When every first attempt succeeds, the sequential loop records every file
by name in input order. -/
theorem oldLoop_names_of_first_ok (svc : Services)
    (ha : ∀ i, ∃ t, svc.analysis i 1 = .ok t)
    (hg : ∀ i p, ∃ u, svc.generation i p 1 = .ok u) :
    ∀ (files : List String) (i : Nat),
      (oldLoopFrom svc i files).map OldResult.original_name = files := by
  intro files
  induction files with
  | nil => intro i; simp [oldLoopFrom]
  | cons nm rest ih =>
      intro i
      obtain ⟨t, ht⟩ := ha i
      obtain ⟨u, hu⟩ := hg i (" " ++ t)
      simp [oldLoopFrom, analyze_image, generate_image_from_analysis, ht, hu, ih (i + 1)]

/-- When every first attempt succeeds, every gathered outcome is a success. -/
theorem batch_success_of_first_ok (svc : Services)
    (ha : ∀ i, ∃ t, svc.analysis i 1 = .ok t)
    (hg : ∀ i p, ∃ u, svc.generation i p 1 = .ok u) :
    ∀ (files : List String) (i : Nat),
      ∀ r ∈ processFrom svc none i files, r.isSuccess = true := by
  intro files
  induction files with
  | nil => intro i r hr; simp [processFrom] at hr
  | cons nm rest ih =>
      intro i r hr
      simp only [processFrom, List.mem_cons] at hr
      rcases hr with hr | hr
      · subst hr
        exact job_success_of_first_ok (oraclesFor svc i) nm i (ha i) (fun p => hg i p)
      · exact ih (i + 1) r hr

/-! ### Claim theorems about the batch run -/

/-- C1: for every batch of N submitted inputs the asynchronous batch run
returns exactly N job outcomes, one per input in task order — outcome number i
carries index i and the original name of input i, so no input is skipped or
dropped — and each outcome is tagged as either a success or a failure, the
only two constructors a job can produce, because the job converts every
exception raised inside it into its failure outcome. -/
theorem batch_one_outcome_per_input (svc : Services) (files : List String)
    (ratio : Option String) :
    (process_all_images_async svc files ratio).length = files.length ∧
    (process_all_images_async svc files ratio).map JobOutcome.idx
      = List.range files.length ∧
    (process_all_images_async svc files ratio).map JobOutcome.origName = files ∧
    ∀ r ∈ process_all_images_async svc files ratio,
      (∃ i n u, r = JobOutcome.success i n u) ∨ (∃ i n e, r = JobOutcome.failure i n e) := by
  have h := processFrom_map svc ratio files 0
  refine ⟨?_, ?_, h.2, ?_⟩
  · have hlen := congrArg List.length h.2
    simpa using hlen
  · rw [process_all_images_async, h.1]
    exact (List.range_eq_range' _).symm
  · intro r _
    cases r with
    | success i n u => exact .inl ⟨i, n, u, rfl⟩
    | failure i n e => exact .inr ⟨i, n, e, rfl⟩

/-- C2: the finalized result sequence — the gathered outcomes sorted by their
index key — is sorted by original submission index in ascending order, equals
the submission-order list itself, and is invariant under every permutation of
the order in which the jobs actually complete. -/
theorem sorted_by_index_completion_invariant (svc : Services) (files : List String)
    (ratio : Option String) (completed : List JobOutcome)
    (hperm : List.Perm completed (process_all_images_async svc files ratio)) :
    sorted_results completed = sorted_results (process_all_images_async svc files ratio) ∧
    sorted_results completed = process_all_images_async svc files ratio ∧
    (sorted_results completed).map JobOutcome.idx = List.range files.length := by
  have hidx := (processFrom_map svc ratio files 0).1
  have hnd : ((process_all_images_async svc files ratio).map JobOutcome.idx).Nodup := by
    rw [process_all_images_async, hidx, ← List.range_eq_range']
    exact List.nodup_range _
  have hstrict := batch_strict_sorted svc files ratio
  have heq : sorted_results completed = process_all_images_async svc files ratio :=
    eq_of_perm_of_idx_sorted _ _ ((sorted_results_perm completed).trans hperm)
      (sorted_results_pairwise completed)
      (hstrict.imp (fun h => le_of_lt h)) hnd
  have heqself : sorted_results (process_all_images_async svc files ratio)
      = process_all_images_async svc files ratio :=
    eq_of_perm_of_idx_sorted _ _ (sorted_results_perm _)
      (sorted_results_pairwise _)
      (hstrict.imp (fun h => le_of_lt h)) hnd
  refine ⟨heq.trans heqself.symm, heq, ?_⟩
  rw [heq, process_all_images_async, hidx]
  exact (List.range_eq_range' _).symm

/-- C2 witness: for a concrete two-file batch, presenting the outcomes in
reversed completion order leaves the finalized sorted sequence unchanged. -/
theorem sorted_by_index_completion_invariant_witness :
    sorted_results (process_all_images_async svcAllOk ["a.jpg", "b.jpg"] none).reverse
      = sorted_results (process_all_images_async svcAllOk ["a.jpg", "b.jpg"] none) ∧
    sorted_results (process_all_images_async svcAllOk ["a.jpg", "b.jpg"] none).reverse
      = process_all_images_async svcAllOk ["a.jpg", "b.jpg"] none ∧
    (sorted_results (process_all_images_async svcAllOk ["a.jpg", "b.jpg"] none).reverse).map
        JobOutcome.idx = List.range 2 :=
  sorted_by_index_completion_invariant svcAllOk ["a.jpg", "b.jpg"] none
    (process_all_images_async svcAllOk ["a.jpg", "b.jpg"] none).reverse
    (List.reverse_perm _)

/-- C7: within one job the remote stages run strictly sequentially in the
fixed order localization, then aspect analysis exactly when a target ratio was
requested, then generation — the call list is always a front segment of that
sequence; a job whose localization fails makes no aspect or generation call
and ends in a failure outcome; and the composed generation prompt is the
aspect guidance followed by a blank line and the localization result when
aspect analysis ran, and the localization result alone otherwise. -/
theorem stage_order_and_prompt_composition (o : RemoteOracles) (nm : String)
    (ratio : Option String) (i : Nat) :
    (match ratio with
     | none =>
         (async_process_single_image o nm ratio i).2.calls = [Stage.localization] ∨
         (async_process_single_image o nm ratio i).2.calls
           = [Stage.localization, Stage.generation]
     | some _ =>
         (async_process_single_image o nm ratio i).2.calls = [Stage.localization] ∨
         (async_process_single_image o nm ratio i).2.calls
           = [Stage.localization, Stage.aspect] ∨
         (async_process_single_image o nm ratio i).2.calls
           = [Stage.localization, Stage.aspect, Stage.generation]) ∧
    (∀ e, (async_openrouter_call o.loc "LOCALIZATION").result = .error e →
       (async_process_single_image o nm ratio i).2.calls = [Stage.localization] ∧
       (async_process_single_image o nm ratio i).1.isSuccess = false) ∧
    (∀ l, (async_openrouter_call o.loc "LOCALIZATION").result = .ok l →
       (ratio = none → (async_process_single_image o nm ratio i).2.genPrompt = some l) ∧
       (∀ r, ratio = some r → ∀ a, (async_openrouter_call o.aspect "ASPECT").result = .ok a →
          (async_process_single_image o nm ratio i).2.genPrompt
            = some (a ++ "\n\n" ++ l))) := by
  unfold async_process_single_image
  rcases hl : (async_openrouter_call o.loc "LOCALIZATION").result with e | l
  · rcases ratio with _ | r <;>
      simp [hl, JobOutcome.isSuccess]
  · rcases ratio with _ | r
    · rcases hg : (async_openrouter_call (o.gen l) "GENERATION").result with e | u <;>
        simp [hl, hg, JobOutcome.isSuccess]
    · rcases ha : (async_openrouter_call o.aspect "ASPECT").result with e | a
      · simp [hl, ha, JobOutcome.isSuccess]
      · rcases hg : (async_openrouter_call (o.gen (a ++ "\n\n" ++ l)) "GENERATION").result with e | u <;>
          simp [hl, ha, hg, JobOutcome.isSuccess]

/-- C7 witness: at a stub whose localization raises, the job makes only the
localization call and fails; at an all-success stub with a requested ratio,
the generation prompt is the aspect guidance, a blank line, then the
localization result. -/
theorem stage_order_and_prompt_composition_witness :
    ((async_process_single_image oracleLocFail "a.jpg" (some "1:1") 0).2.calls
        = [Stage.localization] ∧
      (async_process_single_image oracleLocFail "a.jpg" (some "1:1") 0).1.isSuccess = false) ∧
    (async_process_single_image oracleAllOk "a.jpg" (some "1:1") 0).2.genPrompt
        = some ("ASP" ++ "\n\n" ++ "LOC") :=
  ⟨(stage_order_and_prompt_composition oracleLocFail "a.jpg" (some "1:1") 0).2.1
      (.raised "boom") rfl,
   ((stage_order_and_prompt_composition oracleAllOk "a.jpg" (some "1:1") 0).2.2
      "LOC" rfl).2 "1:1" rfl "ASP" rfl⟩

/-- C8 counterexample: in the asynchronous variant the archive loop has no
per-item handler, so with three successful items of which the middle payload
fails to decode, archive construction aborts with that decode error instead of
completing with entries for the two decodable items. -/
theorem zip_new_abort_cex :
    zip_entries_new decStub [("a.jpg", "da"), ("b.jpg", "bad"), ("c.jpg", "dc")]
      = .error "Invalid base64" ∧
    zip_entries_new decStub [("a.jpg", "da"), ("b.jpg", "bad"), ("c.jpg", "dc")]
      ≠ .ok [("generated_a.jpg", "da"), ("generated_c.jpg", "dc")] := by
  refine ⟨rfl, fun h => ?_⟩
  have h2 := (show zip_entries_new decStub [("a.jpg", "da"), ("b.jpg", "bad"), ("c.jpg", "dc")]
      = Except.error "Invalid base64" from rfl).symm.trans h
  exact Except.noConfusion h2

/-- C8 amended: in the sequential variant each item decode is guarded by its
own handler, so the archive always completes, containing exactly one entry per
decodable item in order, with one warning per undecodable item; in the
asynchronous variant the loop is unguarded and the first undecodable payload
aborts archive construction with that exception. -/
theorem zip_per_item_isolation_old_vs_new (dec : String → Except String String) :
    (∀ items : List (String × String),
      (zip_entries_old dec items).1 = items.filterMap
        (fun it => match dec it.2 with
          | .ok d => some ("generated_" ++ it.1, d)
          | .error _ => none)) ∧
    (∀ items : List (String × String),
      (zip_entries_old dec items).2.length
        = (items.filter (fun it => !(dec it.2).isOk)).length) ∧
    (∀ (pre : List (String × String)) (nm payload : String)
        (post : List (String × String)) (e : String),
      (∀ it ∈ pre, (dec it.2).isOk = true) → dec payload = .error e →
      zip_entries_new dec (pre ++ (nm, payload) :: post) = .error e) := by
  refine ⟨?_, ?_, ?_⟩
  · intro items
    induction items with
    | nil => simp [zip_entries_old]
    | cons it rest ih =>
        obtain ⟨nm, payload⟩ := it
        rcases hd : dec payload with e | d <;>
          simp [zip_entries_old, hd, ih]
  · intro items
    induction items with
    | nil => simp [zip_entries_old]
    | cons it rest ih =>
        obtain ⟨nm, payload⟩ := it
        rcases hd : dec payload with e | d <;>
          simp [zip_entries_old, List.filter, hd, Except.isOk, Except.toBool, ih]
  · intro pre
    induction pre with
    | nil =>
        intro nm payload post e _ hd
        simp [zip_entries_new, hd]
    | cons it rest ih =>
        intro nm payload post e hpre hd
        obtain ⟨nm2, p2⟩ := it
        have hok := hpre (nm2, p2) (by simp)
        rcases hd2 : dec p2 with e2 | d2
        · rw [hd2] at hok; simp [Except.isOk, Except.toBool] at hok
        · have := ih nm payload post e (fun it hit => hpre it (by simp [hit])) hd
          simp [zip_entries_new, hd2, this]

/-- C8 amended witness: at the concrete decoder and three items with an
undecodable middle payload, the sequential archive contains exactly the two
decodable entries while the asynchronous archive aborts with the decode
error. -/
theorem zip_per_item_isolation_old_vs_new_witness :
    (zip_entries_old decStub [("a.jpg", "da"), ("b.jpg", "bad"), ("c.jpg", "dc")]).1
      = [("generated_a.jpg", "da"), ("generated_c.jpg", "dc")] ∧
    zip_entries_new decStub ([("a.jpg", "da")] ++ ("b.jpg", "bad") :: [("c.jpg", "dc")])
      = .error "Invalid base64" :=
  ⟨((zip_per_item_isolation_old_vs_new decStub).1
      [("a.jpg", "da"), ("b.jpg", "bad"), ("c.jpg", "dc")]).trans (by decide),
   (zip_per_item_isolation_old_vs_new decStub).2.2 [("a.jpg", "da")] "b.jpg" "bad"
     [("c.jpg", "dc")] "Invalid base64" (by decide) rfl⟩

/-- C9 counterexample: run against the same remote-service stub — analysis
fails transiently on attempt 1 and succeeds from attempt 2 on, generation
always succeeds — on the one-file batch, the sequential variant records no
outcome at all (it never retries and drops the failed job) while the
asynchronous variant retries and records one success, so the two variants do
not produce the same outcomes for the same inputs and responses. -/
theorem variants_not_identical_cex :
    old_main_results svcFlaky ["a.jpg"] = [] ∧
    process_all_images_async svcFlaky ["a.jpg"] none
      = [JobOutcome.success 0 "a.jpg" "IMG"] ∧
    (old_main_results svcFlaky ["a.jpg"]).length ≠
      (process_all_images_async svcFlaky ["a.jpg"] none).length :=
  ⟨rfl, rfl, by decide⟩

/-- C9 amended: the two variants do not behave identically — the sequential
variant performs exactly one attempt per remote call and silently omits failed
jobs from its result list, while the asynchronous variant retries caught
transient errors up to MAX_RETRIES attempts and records one tagged outcome per
input — but they agree in this respect: when every analysis and generation
call succeeds on its first attempt, both record a success for every input,
with the same original names in the same submission order. -/
theorem variants_agree_when_first_attempts_succeed (svc : Services) (files : List String)
    (ha : ∀ i, ∃ t, svc.analysis i 1 = .ok t)
    (hg : ∀ i p, ∃ u, svc.generation i p 1 = .ok u) :
    (old_main_results svc files).map OldResult.original_name = files ∧
    (process_all_images_async svc files none).map JobOutcome.origName = files ∧
    ∀ r ∈ process_all_images_async svc files none, r.isSuccess = true :=
  ⟨oldLoop_names_of_first_ok svc ha hg files 0,
   (processFrom_map svc none files 0).2,
   batch_success_of_first_ok svc ha hg files 0⟩

/-- C9 amended witness: at the all-success stub and a two-file batch, both
variants record successes for both files in submission order. -/
theorem variants_agree_when_first_attempts_succeed_witness :
    (old_main_results svcAllOk ["a.jpg", "b.jpg"]).map OldResult.original_name
      = ["a.jpg", "b.jpg"] ∧
    (process_all_images_async svcAllOk ["a.jpg", "b.jpg"] none).map JobOutcome.origName
      = ["a.jpg", "b.jpg"] ∧
    ∀ r ∈ process_all_images_async svcAllOk ["a.jpg", "b.jpg"] none, r.isSuccess = true :=
  variants_agree_when_first_attempts_succeed svcAllOk ["a.jpg", "b.jpg"]
    (fun _ => ⟨"LOC", rfl⟩) (fun _ _ => ⟨"IMG", rfl⟩)

end AdImgLoc
